import Mathlib

/-!
Shallow embedding of the publication-visibility layer of the
`aldryn_newsblog` repository (files `aldryn_newsblog/managers.py`,
`aldryn_newsblog/models.py`,
`aldryn_newsblog/management/commands/pregenerate_thumbnails.py`).

The relational store is modelled as a `List Article`; each queryset
operation of the source becomes a pure list transformation.  Timestamps
are modelled at day granularity (the source only ever compares them),
and ORDER BY / `sorted(...)` steps are modelled by a stable insertion
sort over a boolean comparator.
-/

/-- Calendar timestamp used for `publishing_date` and for the `now()`
values the source compares against.  Day granularity suffices: the
source only orders and compares timestamps and truncates them to
months. -/
structure DateTime where
  year : Nat
  month : Nat
  day : Nat
deriving DecidableEq

/-- Lexicographic `<=` on timestamps, mirroring the
`publishing_date__lte=now()` comparison in `managers.py` line 29. -/
def DateTime.le (a b : DateTime) : Bool :=
  decide (a.year < b.year) ||
    (decide (a.year = b.year) &&
      (decide (a.month < b.month) ||
        (decide (a.month = b.month) && decide (a.day ≤ b.day))))

/-- Lexicographic `<` on timestamps; `publishing_date > now()` in
`models.py` line 185 is `DateTime.lt now publishing_date`. -/
def DateTime.lt (a b : DateTime) : Bool :=
  decide (a.year < b.year) ||
    (decide (a.year = b.year) &&
      (decide (a.month < b.month) ||
        (decide (a.month = b.month) && decide (a.day < b.day))))

/-- Insert `x` into `l` in front of the first element `y` with
`le x y = true`. -/
def insertOrd {α : Type} (le : α → α → Bool) (x : α) : List α → List α
  | [] => [x]
  | y :: ys => if le x y then x :: y :: ys else y :: insertOrd le x ys

/-- Insertion sort by the boolean comparator `le`; models the
`ORDER BY` clauses and Python `sorted(...)` calls of the source. -/
def sortOrd {α : Type} (le : α → α → Bool) : List α → List α
  | [] => []
  | x :: xs => insertOrd le x (sortOrd le xs)

/-- One row of the `Article` table together with its to-many
associations, as used by the visibility layer (`models.py` lines
69-166): the publication flags, the section (`app_config` namespace
string), the optional `author` (a `Person` primary key), the tags
attached through `TaggedItem` rows (tag primary keys, one list entry
per tagged item), and the language codes of its translation rows. -/
structure Article where
  pk : Nat
  is_published : Bool
  is_featured : Bool
  publishing_date : DateTime
  app_config : String
  author : Option Nat
  tags : List Nat
  translations : List String
deriving DecidableEq

/-- `Article.published` property (`models.py` lines 171-177): true only
if `is_published` and the `publishing_date` has passed. -/
def Article.published (a : Article) (now : DateTime) : Bool :=
  a.is_published && DateTime.le a.publishing_date now

/-- `Article.future` property (`models.py` lines 179-185): published
but scheduled for a future date. -/
def Article.future (a : Article) (now : DateTime) : Bool :=
  a.is_published && DateTime.lt now a.publishing_date

/-- `ArticleQuerySet.published` (`managers.py` lines 24-29):
`filter(is_published=True, publishing_date__lte=now())`. -/
def ArticleQuerySet.published (qs : List Article) (now : DateTime) : List Article :=
  qs.filter (fun a => a.is_published && DateTime.le a.publishing_date now)

/-- The `namespace(ns)` queryset filter supplied by the apphooks-config
collaborator: keeps the articles whose section has namespace `ns`. -/
def ArticleQuerySet.namespaceFilter (qs : List Article) (ns : String) : List Article :=
  qs.filter (fun a => a.app_config == ns)

/-- Descending `publishing_date` comparator: `Article.Meta.ordering =
['-publishing_date']` (`models.py` lines 168-169). -/
def articleDescLe (a b : Article) : Bool :=
  DateTime.le b.publishing_date a.publishing_date

/-- Descending comparator on `(key, count)` pairs, for the
`order_by('-num_articles')` / `sorted(..., reverse=True)` steps. -/
def countDescLe (x y : Nat × Nat) : Bool :=
  Nat.ble y.2 x.2

/-- Descending comparator on `(month, count)` rows, for
`order_by('-month')` in `get_months`. -/
def monthDescLe (x y : DateTime × Nat) : Bool :=
  DateTime.le y.1 x.1

/-- The visibility predicate applied by every queryset of the source:
in edit mode the queryset is left unfiltered (editors see everything in
scope), otherwise `ArticleQuerySet.published` is applied, i.e. the
`Article.published` predicate. -/
def is_visible (a : Article) (viewer_is_editor : Bool) (now : DateTime) : Bool :=
  if viewer_is_editor then true else Article.published a now

/-- `RelatedManager.published().namespace(ns)` with the model's default
ordering applied (`managers.py` lines 43-44 and 78, `models.py` lines
168-169): the published articles of the namespace, most recent
first. -/
def published_in (ns : String) (now : DateTime) (db : List Article) : List Article :=
  sortOrd articleDescLe
    (ArticleQuerySet.namespaceFilter (ArticleQuerySet.published db now) ns)

/-- The article join rows matched by the person filter of
`RelatedManager.get_authors` (`managers.py` lines 101-103):
`article__app_config__namespace=ns, article__is_published=True`.  Note
the filter tests only the `is_published` flag, not `publishing_date`. -/
def author_rows (ns : String) (db : List Article) : List Article :=
  db.filter (fun a => a.app_config == ns && a.is_published)

/-- `RelatedManager.get_authors` (`managers.py` lines 92-104):
`Person.objects.filter(...).annotate(num_articles=Count('article'))
.order_by('-num_articles')`.  Grouping the join rows by person yields
each matched author once, annotated with the row count.  Result:
`(person_pk, num_articles)` pairs, count descending. -/
def get_authors (ns : String) (db : List Article) : List (Nat × Nat) :=
  sortOrd countDescLe
    (((author_rows ns db).filterMap (fun a => a.author)).dedup.map
      (fun p => (p, ((author_rows ns db).filter (fun a => a.author == some p)).length)))

/-- Modelled from the spec: `authors_with_counts(namespace)` restricted
to articles that are published per the invariant
`is_published == true AND publishing_date <= now`.  Stated only to
compare against `get_authors`, which omits the date test. -/
def authors_with_counts_spec (ns : String) (now : DateTime) (db : List Article) :
    List (Nat × Nat) :=
  let rows := db.filter (fun a => a.app_config == ns && Article.published a now)
  let authors := (rows.filterMap (fun a => a.author)).dedup
  sortOrd countDescLe
    (authors.map (fun p => (p, (rows.filter (fun a => a.author == some p)).length)))

/-- The candidate queryset shared by `get_months` and `get_tags`
(`managers.py` lines 75-78 and 112-116): all namespace articles in edit
mode, only the published ones otherwise. -/
def candidate_articles (edit_mode : Bool) (ns : String) (now : DateTime)
    (db : List Article) : List Article :=
  if edit_mode then ArticleQuerySet.namespaceFilter db ns
  else ArticleQuerySet.namespaceFilter (ArticleQuerySet.published db now) ns

/-- The `TaggedItem` rows attached to a list of articles: one tag
primary key per tagged item. -/
def tagged_items (articles : List Article) : List Nat :=
  articles.flatMap (fun a => a.tags)

/-- The aggregate-and-sort tail of `RelatedManager.get_tags`
(`managers.py` lines 120-133): group the `TaggedItem` rows of the
candidate articles by tag, count them, and sort the tags by count
descending.  Result: `(tag_pk, num_articles)` pairs. -/
def tags_aggregate (articles : List Article) : List (Nat × Nat) :=
  sortOrd countDescLe
    ((tagged_items articles).dedup.map
      (fun t => (t, (tagged_items articles).count t)))

/-- `RelatedManager.get_tags` (`managers.py` lines 106-133), including
the `if not articles.exists(): return []` short-circuit at lines
117-119. -/
def get_tags (edit_mode : Bool) (ns : String) (now : DateTime) (db : List Article) :
    List (Nat × Nat) :=
  if (candidate_articles edit_mode ns now db).isEmpty then []
  else tags_aggregate (candidate_articles edit_mode ns now db)

/-- Configuration of `NewsBlogLatestArticlesPlugin` (`models.py` lines
441-455): the section, the plugin's own language, the maximum number of
latest articles to display and how many of the most recent featured
articles to exclude. -/
structure LatestArticlesPlugin where
  app_config : String
  language : String
  latest_articles : Nat
  exclude_featured : Nat
deriving DecidableEq

/-- `translated(*languages)` of the translation collaborator: keeps the
articles having a translation row in one of the allowed languages. -/
def translatedFilter (qs : List Article) (languages : List String) : List Article :=
  qs.filter (fun a => a.translations.any (fun l => languages.contains l))

/-- The `featured_ids` computed inside
`NewsBlogLatestArticlesPlugin.get_articles` (`models.py` lines 463-477):
the primary keys of the up-to-`exclude_featured` most recent featured
articles of the section that pass the published filter (skipped in edit
mode) and the language filter. -/
def latest_featured_ids (p : LatestArticlesPlugin) (edit_mode : Bool)
    (languages : List String) (now : DateTime) (db : List Article) : List Nat :=
  let featured_qs := db.filter (fun a =>
    a.app_config == p.app_config && a.is_featured)
  let featured_qs := if edit_mode then featured_qs
    else ArticleQuerySet.published featured_qs now
  let featured_qs := translatedFilter featured_qs languages
  ((sortOrd articleDescLe featured_qs).map (fun a => a.pk)).take p.exclude_featured

/-- The main queryset of `NewsBlogLatestArticlesPlugin.get_articles`
before the featured exclusion (`models.py` lines 462-473): section
articles, published filter unless in edit mode, language filter. -/
def latest_base_queryset (p : LatestArticlesPlugin) (edit_mode : Bool)
    (languages : List String) (now : DateTime) (db : List Article) : List Article :=
  translatedFilter
    (if edit_mode then db.filter (fun a => a.app_config == p.app_config)
     else ArticleQuerySet.published (db.filter (fun a => a.app_config == p.app_config)) now)
    languages

/-- The `queryset.exclude(pk__in=featured_ids)` step of
`NewsBlogLatestArticlesPlugin.get_articles` (`models.py` lines
478-479), applied only when `featured_ids` is non-empty. -/
def latest_remaining (p : LatestArticlesPlugin) (edit_mode : Bool)
    (languages : List String) (now : DateTime) (db : List Article) : List Article :=
  if (latest_featured_ids p edit_mode languages now db).isEmpty then
    latest_base_queryset p edit_mode languages now db
  else
    (latest_base_queryset p edit_mode languages now db).filter
      (fun a => !((latest_featured_ids p edit_mode languages now db).contains a.pk))

/-- `NewsBlogLatestArticlesPlugin.get_articles` (`models.py` lines
457-480): empty result when the plugin's language is not among the
request's allowed languages, otherwise the base queryset minus the
featured ids, truncated to `latest_articles` under the default
descending `publishing_date` ordering. -/
def latest_get_articles (p : LatestArticlesPlugin) (edit_mode : Bool)
    (languages : List String) (now : DateTime) (db : List Article) : List Article :=
  if !(languages.contains p.language) then []
  else (sortOrd articleDescLe (latest_remaining p edit_mode languages now db)).take
    p.latest_articles

/-- Configuration of `NewsBlogFeaturedArticlesPlugin` (`models.py`
lines 406-411). -/
structure FeaturedArticlesPlugin where
  app_config : String
  language : String
  article_count : Nat
deriving DecidableEq

/-- `NewsBlogFeaturedArticlesPlugin.get_articles` (`models.py` lines
413-426): empty when `article_count` is zero, published filter unless
in edit mode, empty result when the plugin's language is not allowed,
then the featured articles of the section in the allowed languages
truncated to `article_count`. -/
def featured_get_articles (p : FeaturedArticlesPlugin) (edit_mode : Bool)
    (languages : List String) (now : DateTime) (db : List Article) : List Article :=
  if p.article_count == 0 then []
  else if !(languages.contains p.language) then []
  else
    (sortOrd articleDescLe
      ((translatedFilter (if edit_mode then db else ArticleQuerySet.published db now)
          languages).filter
        (fun a => a.app_config == p.app_config && a.is_featured))).take p.article_count

/-- One `{'date': ..., 'num_articles': ...}` row of `get_months`; the
date is the first day of the month (`TruncMonth`). -/
abbrev MonthsResult := List (DateTime × Nat)

/-- The process-wide cache collaborator, restricted to the month
histogram entries it stores: an association list from string keys to
values.  TTL expiry is not modelled; a stored entry stands for an entry
that is still within its TTL window. -/
abbrev Cache := List (String × MonthsResult)

/-- `cache.get(key)`. -/
def cache_get (c : Cache) (k : String) : Option MonthsResult :=
  match c.find? (fun e => e.1 == k) with
  | some e => some e.2
  | none => none

/-- `cache.set(key, value)` with the default TTL. -/
def cache_set (c : Cache) (k : String) (v : MonthsResult) : Cache :=
  (k, v) :: c

/-- `TruncMonth('publishing_date')` followed by `.date()`: the first
day of the timestamp's month. -/
def truncMonth (d : DateTime) : DateTime :=
  ⟨d.year, d.month, 1⟩

/-- The aggregate query of `get_months` (`managers.py` lines 80-89):
annotate each article with its truncated month, group by month, count
the rows of each group, order by month descending. -/
def months_histogram (articles : List Article) : MonthsResult :=
  let months := (articles.map (fun a => truncMonth a.publishing_date)).dedup
  sortOrd monthDescLe
    (months.map (fun m =>
      (m, articles.countP (fun a => truncMonth a.publishing_date == m))))

/-- What one call to `RelatedManager.get_months` produces: the returned
rows, the cache as left behind by the call, and whether the underlying
store was queried. -/
structure GetMonthsOutcome where
  months : MonthsResult
  cache : Cache
  queried_store : Bool
deriving DecidableEq

/-- The `'nb_months_%s_%s_%s' % (namespace, language, int(edit_mode))`
cache key (`managers.py` line 70). -/
def months_cache_key (ns : String) (language : String) (edit_mode : Bool) : String :=
  "nb_months_" ++ ns ++ "_" ++ language ++ "_" ++ (if edit_mode then "1" else "0")

/-- `RelatedManager.get_months` (`managers.py` lines 47-91): build the
cache key, return the cached rows when present (without touching the
store), otherwise run the aggregate query over the candidate articles
and store the rows in the cache. -/
def get_months (c : Cache) (edit_mode : Bool) (ns : String) (language : String)
    (now : DateTime) (db : List Article) : GetMonthsOutcome :=
  match cache_get c (months_cache_key ns language edit_mode) with
  | some months => ⟨months, c, false⟩
  | none =>
    ⟨months_histogram (candidate_articles edit_mode ns now db),
     cache_set c (months_cache_key ns language edit_mode)
       (months_histogram (candidate_articles edit_mode ns now db)),
     true⟩

/-- The featured image of an article as the thumbnail command sees it:
the `subject_location` option passed to the thumbnailer, and the
outcome of the external `get_thumbnail` call on it (`True` when the
thumbnailer raises for this image, with the exception's message). -/
structure ThumbImage where
  subject_location : String
  generation_fails : Bool
  failure_message : String
deriving DecidableEq

/-- The slice of an article the thumbnail command reads. -/
structure ThumbArticle where
  title : String
  featured_image : Option ThumbImage
deriving DecidableEq

/-- The body of the `try` block of `_generate_thumbnail_for_article`
(`pregenerate_thumbnails.py` lines 15-27): the `Article.objects.get`
lookup (modelled as `none` when it raises `DoesNotExist`), then the
thumbnailer call when a featured image is present.  `Except.error`
stands for a raised exception, `Except.ok` for the success message. -/
def thumbnail_body (lookup : Option ThumbArticle) : Except String String :=
  match lookup with
  | none => Except.error "Article matching query does not exist."
  | some article =>
    match article.featured_image with
    | some image =>
      if image.generation_fails then Except.error image.failure_message
      else Except.ok ("Generated thumbnail for article '" ++ article.title ++ "'")
    | none =>
      Except.ok ("Article '" ++ article.title ++ "' has no featured image, skipping.")

/-- `_generate_thumbnail_for_article` (`pregenerate_thumbnails.py`
lines 10-30): every exception of the body is caught and turned into a
`(False, message)` result, successes into `(True, message)`. -/
def generate_thumbnail_for_article (article_pk : Nat) (lookup : Option ThumbArticle) :
    Bool × String :=
  match thumbnail_body lookup with
  | Except.ok msg => (true, msg)
  | Except.error e =>
    (false, "Could not process article " ++ toString article_pk ++ ": " ++ e)

/-- The end-of-run state of `Command.handle` (`pregenerate_thumbnails.py`
lines 65-97): one result per submitted job plus the success and failure
counters reported to the operator. -/
structure BatchReport where
  success_count : Nat
  error_count : Nat
  results : List (Bool × String)
deriving DecidableEq

/-- The job-dispatch-and-aggregation loop of `Command.handle`
(`pregenerate_thumbnails.py` lines 68-97).  A job is an article primary
key together with that article's database lookup outcome.  The worker
pool runs the jobs independently and the coordinator counts successes
and failures as the results complete; since the counters are invariant
under completion order, the loop is modelled by mapping over the job
list. -/
def handle (jobs : List (Nat × Option ThumbArticle)) : BatchReport :=
  let results := jobs.map (fun j => generate_thumbnail_for_article j.1 j.2)
  { success_count := results.countP (fun r => r.1)
    error_count := results.countP (fun r => !r.1)
    results := results }

/-- A fixed "current time" for the concrete scenarios. -/
def t0 : DateTime := ⟨2026, 10, 12⟩

/-- A plain article of the `news` section with an English translation
and no tags or author; the flags and the date vary per scenario. -/
def mkArticle (pk : Nat) (pub : Bool) (feat : Bool) (d : DateTime) : Article :=
  { pk := pk, is_published := pub, is_featured := feat, publishing_date := d,
    app_config := "news", author := none, tags := [], translations := ["en"] }

/-- Five articles created published, after which the first one has been
unpublished (the scenario of `test_published_articles_filtering`). -/
def dbUnpublishedOne : List Article :=
  [mkArticle 1 false false ⟨2026, 1, 1⟩, mkArticle 2 true false ⟨2026, 1, 2⟩,
   mkArticle 3 true false ⟨2026, 1, 3⟩, mkArticle 4 true false ⟨2026, 1, 4⟩,
   mkArticle 5 true false ⟨2026, 1, 5⟩]

/-- A published article of the `news` section whose `publishing_date`
lies in the future of `t0`, with author `7`. -/
def artFutureAuthored : Article :=
  { pk := 1, is_published := true, is_featured := false,
    publishing_date := ⟨2030, 1, 1⟩, app_config := "news",
    author := some 7, tags := [], translations := ["en"] }

/-- An article of the `news` section carrying a single tag. -/
def taggedArticle (pk : Nat) (pub : Bool) (t : Nat) : Article :=
  { pk := pk, is_published := pub, is_featured := false,
    publishing_date := ⟨2026, 1, pk⟩, app_config := "news",
    author := none, tags := [t], translations := ["en"] }

/-- The scenario of `test_get_tags_returns_ordered_counts`: tag `1`
("tag foo") on one unpublished article, tag `2` ("tag bar") on three
published articles, tag `3` ("tag buzz") on five published articles. -/
def tagsExampleDb : List Article :=
  [taggedArticle 1 false 1,
   taggedArticle 2 true 2, taggedArticle 3 true 2, taggedArticle 4 true 2,
   taggedArticle 5 true 3, taggedArticle 6 true 3, taggedArticle 7 true 3,
   taggedArticle 8 true 3, taggedArticle 9 true 3]

/-- A latest-articles widget for the `news` section in English,
`latest_articles=5, exclude_featured=2`. -/
def latestPluginEn : LatestArticlesPlugin := ⟨"news", "en", 5, 2⟩

/-- A latest-articles widget configured for German. -/
def latestPluginDe : LatestArticlesPlugin := ⟨"news", "de", 5, 2⟩

/-- A featured-articles widget configured for German. -/
def featuredPluginDe : FeaturedArticlesPlugin := ⟨"news", "de", 3⟩

/-- Six published English articles; the featured ones (pks 2, 5 and 6)
include the two most recent articles overall. -/
def dbLatest : List Article :=
  [mkArticle 1 true false ⟨2026, 1, 1⟩, mkArticle 2 true true ⟨2026, 1, 2⟩,
   mkArticle 3 true false ⟨2026, 1, 3⟩, mkArticle 4 true false ⟨2026, 1, 4⟩,
   mkArticle 5 true true ⟨2026, 1, 5⟩, mkArticle 6 true true ⟨2026, 1, 6⟩]

/-- An article with `is_published` and a past `publishing_date`. -/
def artPastPub : Article := mkArticle 1 true false ⟨2026, 1, 1⟩

/-- A featured image whose thumbnail generation succeeds. -/
def okImage : ThumbImage := ⟨"center", false, ""⟩

/-- A featured image for which the external thumbnailer raises (the
deliberately failing job: missing source file). -/
def badImage : ThumbImage := ⟨"center", true, "The source file does not exist"⟩

/-- Three thumbnail jobs: one success, one article without a featured
image (success, skipped), one failing job. -/
def thumbJobs : List (Nat × Option ThumbArticle) :=
  [(1, some ⟨"First", some okImage⟩),
   (2, some ⟨"Second", none⟩),
   (3, some ⟨"Third", some badImage⟩)]

/-! ### Order facts about timestamps and comparators -/

theorem DateTime.le_trans (a b c : DateTime) (hab : DateTime.le a b = true)
    (hbc : DateTime.le b c = true) : DateTime.le a c = true := by
  simp only [DateTime.le, Bool.or_eq_true, Bool.and_eq_true, decide_eq_true_eq] at *
  omega

theorem DateTime.le_total (a b : DateTime) :
    DateTime.le a b = true ∨ DateTime.le b a = true := by
  simp only [DateTime.le, Bool.or_eq_true, Bool.and_eq_true, decide_eq_true_eq]
  omega

theorem DateTime.le_eq_not_lt (a b : DateTime) :
    DateTime.le a b = !DateTime.lt b a := by
  rw [Bool.eq_iff_iff]
  simp only [DateTime.le, DateTime.lt, Bool.not_eq_true', Bool.or_eq_true,
    Bool.and_eq_true, decide_eq_true_eq, Bool.or_eq_false_iff,
    Bool.and_eq_false_iff, decide_eq_false_iff_not]
  omega

theorem articleDescLe_trans (a b c : Article) (hab : articleDescLe a b = true)
    (hbc : articleDescLe b c = true) : articleDescLe a c = true :=
  DateTime.le_trans _ _ _ hbc hab

theorem articleDescLe_total (a b : Article) :
    articleDescLe a b = true ∨ articleDescLe b a = true :=
  DateTime.le_total b.publishing_date a.publishing_date

theorem countDescLe_trans (x y z : Nat × Nat) (h1 : countDescLe x y = true)
    (h2 : countDescLe y z = true) : countDescLe x z = true := by
  simp only [countDescLe, Nat.ble_eq] at *
  omega

theorem countDescLe_total (x y : Nat × Nat) :
    countDescLe x y = true ∨ countDescLe y x = true := by
  simp only [countDescLe, Nat.ble_eq]
  omega

theorem monthDescLe_trans (x y z : DateTime × Nat) (h1 : monthDescLe x y = true)
    (h2 : monthDescLe y z = true) : monthDescLe x z = true :=
  DateTime.le_trans _ _ _ h2 h1

theorem monthDescLe_total (x y : DateTime × Nat) :
    monthDescLe x y = true ∨ monthDescLe y x = true :=
  DateTime.le_total y.1 x.1

/-! ### The insertion sort models ORDER BY: permutation and sortedness -/

theorem insertOrd_perm {α : Type} (le : α → α → Bool) (x : α) (l : List α) :
    (insertOrd le x l).Perm (x :: l) := by
  induction l with
  | nil => exact List.Perm.refl _
  | cons y ys ih =>
    simp only [insertOrd]
    by_cases h : le x y
    · rw [if_pos h]
    · rw [if_neg h]
      exact (ih.cons y).trans (List.Perm.swap x y ys)

theorem mem_insertOrd {α : Type} {le : α → α → Bool} {x z : α} {l : List α} :
    z ∈ insertOrd le x l ↔ z = x ∨ z ∈ l := by
  rw [(insertOrd_perm le x l).mem_iff, List.mem_cons]

theorem sortOrd_perm {α : Type} (le : α → α → Bool) (l : List α) :
    (sortOrd le l).Perm l := by
  induction l with
  | nil => exact List.Perm.refl _
  | cons x xs ih => exact (insertOrd_perm le x (sortOrd le xs)).trans (ih.cons x)

theorem mem_sortOrd {α : Type} {le : α → α → Bool} {z : α} {l : List α} :
    z ∈ sortOrd le l ↔ z ∈ l :=
  (sortOrd_perm le l).mem_iff

theorem pairwise_insertOrd {α : Type} {le : α → α → Bool}
    (htrans : ∀ a b c, le a b = true → le b c = true → le a c = true)
    (htot : ∀ a b, le a b = true ∨ le b a = true)
    (x : α) {l : List α} (hl : List.Pairwise (fun a b => le a b = true) l) :
    List.Pairwise (fun a b => le a b = true) (insertOrd le x l) := by
  induction l with
  | nil => simp [insertOrd]
  | cons y ys ih =>
    rcases List.pairwise_cons.mp hl with ⟨hy, hys⟩
    simp only [insertOrd]
    by_cases h : le x y
    · rw [if_pos h]
      refine List.pairwise_cons.mpr ⟨?_, hl⟩
      intro z hz
      rcases List.mem_cons.mp hz with rfl | hz'
      · exact h
      · exact htrans x y z h (hy z hz')
    · rw [if_neg h]
      refine List.pairwise_cons.mpr ⟨?_, ih hys⟩
      intro z hz
      rcases mem_insertOrd.mp hz with hzx | hz'
      · have hyx : le y x = true := by
          rcases htot x y with hxy | hyx
          · exact absurd hxy h
          · exact hyx
        rw [hzx]
        exact hyx
      · exact hy z hz'

theorem pairwise_sortOrd {α : Type} {le : α → α → Bool}
    (htrans : ∀ a b c, le a b = true → le b c = true → le a c = true)
    (htot : ∀ a b, le a b = true ∨ le b a = true)
    (l : List α) :
    List.Pairwise (fun a b => le a b = true) (sortOrd le l) := by
  induction l with
  | nil => simp [sortOrd]
  | cons x xs ih => exact pairwise_insertOrd htrans htot x ih

/-- Descending sortedness of any `(key, count)` list sorted by
`countDescLe`. -/
theorem pairwise_sortOrd_counts (l : List (Nat × Nat)) :
    List.Pairwise (fun x y : Nat × Nat => y.2 ≤ x.2) (sortOrd countDescLe l) :=
  (pairwise_sortOrd countDescLe_trans countDescLe_total l).imp
    (fun h => by simpa only [countDescLe, Nat.ble_eq] using h)

/-- Membership in a count-sorted list built by pairing each key with a
computed count. -/
theorem mem_sortOrd_map_count (keys : List Nat) (g : Nat → Nat) (p : Nat) (c : Nat) :
    (p, c) ∈ sortOrd countDescLe (keys.map (fun k => (k, g k))) ↔
      p ∈ keys ∧ c = g p := by
  rw [mem_sortOrd]
  simp only [List.mem_map, Prod.mk.injEq]
  constructor
  · rintro ⟨q, hq, rfl, rfl⟩
    exact ⟨hq, rfl⟩
  · rintro ⟨hp, rfl⟩
    exact ⟨p, hp, rfl, rfl⟩

/-- The non-editor candidate queryset is the visibility filter:
`published().namespace(ns)` keeps exactly the namespace articles that
pass `is_visible` with `viewer_is_editor = false`. -/
theorem candidates_eq_filter (ns : String) (now : DateTime) (db : List Article) :
    ArticleQuerySet.namespaceFilter (ArticleQuerySet.published db now) ns
      = db.filter (fun a => a.app_config == ns && is_visible a false now) := by
  unfold ArticleQuerySet.namespaceFilter ArticleQuerySet.published
  rw [List.filter_filter]
  rfl

/-- C1: for every article and current time, with `viewer_is_editor =
false` the article is visible iff `is_published` is true and
`publishing_date <= now`; with `viewer_is_editor = true` it is visible
regardless of publication state. -/
theorem visibility_policy_cases (a : Article) (now : DateTime) :
    (is_visible a false now = true ↔
      (a.is_published = true ∧ DateTime.le a.publishing_date now = true))
    ∧ is_visible a true now = true := by
  constructor
  · simp [is_visible, Article.published]
  · rfl

/-- C2: `published_in` returns exactly the namespace articles passing
the visibility predicate (as a permutation of the filtered store),
ordered by `publishing_date` descending; in particular, on five
published articles with one subsequently unpublished it returns four
articles and excludes the unpublished one. -/
theorem published_in_exact_ordered (ns : String) (now : DateTime) (db : List Article) :
    (published_in ns now db).Perm
      (db.filter (fun a => a.app_config == ns && is_visible a false now))
    ∧ List.Pairwise
        (fun a b => DateTime.le b.publishing_date a.publishing_date = true)
        (published_in ns now db)
    ∧ (published_in "news" t0 dbUnpublishedOne).length = 4
    ∧ mkArticle 1 false false ⟨2026, 1, 1⟩ ∉ published_in "news" t0 dbUnpublishedOne := by
  refine ⟨?_, ?_, by decide, by decide⟩
  · unfold published_in
    rw [candidates_eq_filter]
    exact sortOrd_perm _ _
  · exact pairwise_sortOrd articleDescLe_trans articleDescLe_total _

/-- C10: the derived predicates `published` and `future` are never both
true, and when `is_published` holds exactly one of them does. -/
theorem published_future_exclusive (a : Article) (now : DateTime) :
    (Article.published a now && Article.future a now) = false
    ∧ (a.is_published = true →
        Article.published a now = !Article.future a now) := by
  constructor
  · unfold Article.published Article.future
    cases hp : a.is_published
    · simp
    · simp only [Bool.true_and]
      rw [DateTime.le_eq_not_lt]
      cases DateTime.lt now a.publishing_date <;> simp
  · intro hp
    unfold Article.published Article.future
    rw [hp]
    simp only [Bool.true_and]
    exact DateTime.le_eq_not_lt _ _

/-- Witness for C10 at a concrete published article with a past date. -/
theorem published_future_exclusive_witness :
    artPastPub.is_published = true
    ∧ ((Article.published artPastPub t0 && Article.future artPastPub t0) = false
        ∧ Article.published artPastPub t0 = !Article.future artPastPub t0) :=
  ⟨rfl, (published_future_exclusive artPastPub t0).1,
   (published_future_exclusive artPastPub t0).2 rfl⟩

/-- C3 counterexample: `get_authors` tests only the `is_published`
flag, so an author whose only article is published with a future
`publishing_date` is returned with count 1, although per the
invariant that author has no published article and the spec-side
aggregation returns nothing. -/
theorem get_authors_ignores_date_cex :
    get_authors "news" [artFutureAuthored] = [(7, 1)]
    ∧ Article.published artFutureAuthored t0 = false
    ∧ authors_with_counts_spec "news" t0 [artFutureAuthored] = [] := by
  refine ⟨by decide, by decide, by decide⟩

/-- C3 amended: `get_authors` returns exactly the distinct authors
having at least one article with `is_published = true` in the
namespace (regardless of `publishing_date`), each paired with the
count of those articles, ordered by that count descending. -/
theorem get_authors_flag_counts (ns : String) (db : List Article) (p c : Nat) :
    ((p, c) ∈ get_authors ns db ↔
      ((∃ a ∈ author_rows ns db, a.author = some p)
        ∧ c = ((author_rows ns db).filter (fun a => a.author == some p)).length))
    ∧ List.Pairwise (fun x y : Nat × Nat => y.2 ≤ x.2) (get_authors ns db) := by
  constructor
  · unfold get_authors
    rw [mem_sortOrd_map_count]
    simp only [List.mem_dedup, List.mem_filterMap]
  · exact pairwise_sortOrd_counts _

/-- C4: in non-editor mode `get_tags` returns each tag attached to at
least one visible article of the namespace, paired with its usage
count among the visible articles only, sorted by count descending; on
the scenario of `test_get_tags_returns_ordered_counts` it returns
exactly the two tags of the published articles with counts 5 then
3, the tag of the unpublished article excluded. -/
theorem get_tags_counts_ordered (ns : String) (now : DateTime) (db : List Article)
    (t c : Nat) :
    ((t, c) ∈ get_tags false ns now db ↔
      (t ∈ tagged_items
          (db.filter (fun a => a.app_config == ns && is_visible a false now))
        ∧ c = (tagged_items
          (db.filter (fun a => a.app_config == ns && is_visible a false now))).count t))
    ∧ List.Pairwise (fun x y : Nat × Nat => y.2 ≤ x.2) (get_tags false ns now db)
    ∧ get_tags false "news" t0 tagsExampleDb = [(3, 5), (2, 3)] := by
  have hcand : candidate_articles false ns now db
      = db.filter (fun a => a.app_config == ns && is_visible a false now) :=
    candidates_eq_filter ns now db
  refine ⟨?_, ?_, by decide⟩
  · unfold get_tags
    by_cases hemp : (candidate_articles false ns now db).isEmpty
    · rw [if_pos hemp]
      rw [List.isEmpty_iff] at hemp
      rw [hemp] at hcand
      rw [← hcand]
      simp [tagged_items]
    · rw [if_neg hemp]
      unfold tags_aggregate
      rw [hcand, mem_sortOrd_map_count]
      simp only [List.mem_dedup]
  · unfold get_tags
    by_cases hemp : (candidate_articles false ns now db).isEmpty
    · rw [if_pos hemp]
      exact List.Pairwise.nil
    · rw [if_neg hemp]
      exact pairwise_sortOrd_counts _

/-- C5: when the candidate article set is empty, `get_tags` returns the
empty result through the short-circuit, and the skipped aggregation
would have produced the same empty result. -/
theorem get_tags_empty_short_circuit (edit_mode : Bool) (ns : String) (now : DateTime)
    (db : List Article) (h : candidate_articles edit_mode ns now db = []) :
    get_tags edit_mode ns now db = []
    ∧ tags_aggregate (candidate_articles edit_mode ns now db) = [] := by
  refine ⟨?_, ?_⟩
  · unfold get_tags
    rw [h]
    rfl
  · rw [h]
    rfl

/-- Witness for C5 on an empty store. -/
theorem get_tags_empty_short_circuit_witness :
    candidate_articles false "news" t0 [] = []
    ∧ (get_tags false "news" t0 [] = []
        ∧ tags_aggregate (candidate_articles false "news" t0 []) = []) :=
  ⟨rfl, get_tags_empty_short_circuit false "news" t0 [] rfl⟩

/-- C6: every primary key among the up-to-`exclude_featured` most
recent featured visible articles is excluded from the latest-articles
widget's output, and the output is truncated to `latest_articles`. -/
theorem latest_articles_excludes_featured (p : LatestArticlesPlugin) (edit_mode : Bool)
    (languages : List String) (now : DateTime) (db : List Article) (i : Nat)
    (hi : i ∈ latest_featured_ids p edit_mode languages now db) :
    i ∉ (latest_get_articles p edit_mode languages now db).map (fun a => a.pk)
    ∧ (latest_get_articles p edit_mode languages now db).length ≤ p.latest_articles := by
  constructor
  · intro hmem
    unfold latest_get_articles at hmem
    by_cases hlang : languages.contains p.language
    · simp only [hlang, Bool.not_true, Bool.false_eq_true, if_false, List.mem_map] at hmem
      obtain ⟨a, ha, hpk⟩ := hmem
      have ha' : a ∈ latest_remaining p edit_mode languages now db :=
        mem_sortOrd.mp (List.mem_of_mem_take ha)
      unfold latest_remaining at ha'
      rw [if_neg (fun h => (List.ne_nil_of_mem hi) (List.isEmpty_iff.mp h))] at ha'
      rcases List.mem_filter.mp ha' with ⟨-, hcond⟩
      have hcont : (latest_featured_ids p edit_mode languages now db).contains i = true :=
        List.elem_iff.mpr hi
      rw [hpk, hcont] at hcond
      simp at hcond
    · rw [Bool.not_eq_true] at hlang
      rw [if_pos (by rw [hlang]; rfl)] at hmem
      simp at hmem
  · unfold latest_get_articles
    by_cases hlang : languages.contains p.language
    · rw [if_neg (by rw [hlang]; simp)]
      exact List.length_take_le _ _
    · rw [Bool.not_eq_true] at hlang
      rw [if_pos (by rw [hlang]; rfl)]
      simp

/-- Witness for C6: with `latest_articles=5, exclude_featured=2` the
most recent featured article (pk 6, also the most recent overall) is
among the excluded ids and absent from the output. -/
theorem latest_articles_excludes_featured_witness :
    6 ∈ latest_featured_ids latestPluginEn false ["en"] t0 dbLatest
    ∧ (6 ∉ (latest_get_articles latestPluginEn false ["en"] t0 dbLatest).map
          (fun a => a.pk)
        ∧ (latest_get_articles latestPluginEn false ["en"] t0 dbLatest).length
          ≤ latestPluginEn.latest_articles) :=
  ⟨by decide,
   latest_articles_excludes_featured latestPluginEn false ["en"] t0 dbLatest 6 (by decide)⟩

/-- C7: when the request's allowed languages do not include the
widget's configured language, both the latest-articles widget and the
featured-articles widget return an empty result. -/
theorem unpermitted_language_returns_empty (pl : LatestArticlesPlugin)
    (pf : FeaturedArticlesPlugin) (edit_mode : Bool) (languages : List String)
    (now : DateTime) (db : List Article)
    (hl : languages.contains pl.language = false)
    (hf : languages.contains pf.language = false) :
    latest_get_articles pl edit_mode languages now db = []
    ∧ featured_get_articles pf edit_mode languages now db = [] := by
  constructor
  · unfold latest_get_articles
    rw [if_pos (by rw [hl]; rfl)]
  · unfold featured_get_articles
    by_cases hc : pf.article_count == 0
    · rw [if_pos hc]
    · rw [if_neg hc, if_pos (by rw [hf]; rfl)]

/-- Witness for C7: German widgets under a request allowing only
English. -/
theorem unpermitted_language_returns_empty_witness :
    (["en"].contains latestPluginDe.language = false)
    ∧ (["en"].contains featuredPluginDe.language = false)
    ∧ (latest_get_articles latestPluginDe false ["en"] t0 dbLatest = []
        ∧ featured_get_articles featuredPluginDe false ["en"] t0 dbLatest = []) :=
  ⟨by decide, by decide,
   unpermitted_language_returns_empty latestPluginDe featuredPluginDe false ["en"]
     t0 dbLatest (by decide) (by decide)⟩

/-- Looking up the key just set returns the stored value. -/
theorem cache_get_set (c : Cache) (k : String) (v : MonthsResult) :
    cache_get (cache_set c k v) k = some v := by
  unfold cache_get cache_set
  rw [List.find?_cons_of_pos _ (by simp)]

/-- C8: two consecutive `get_months` calls with identical parameters
and no intervening cache writes return identical results, and the
second call does not query the underlying store. -/
theorem get_months_cache_idempotent (c : Cache) (edit_mode : Bool)
    (ns language : String) (now : DateTime) (db : List Article) :
    (get_months (get_months c edit_mode ns language now db).cache
        edit_mode ns language now db).months
      = (get_months c edit_mode ns language now db).months
    ∧ (get_months (get_months c edit_mode ns language now db).cache
        edit_mode ns language now db).queried_store = false := by
  cases hkey : cache_get c (months_cache_key ns language edit_mode) with
  | some months => constructor <;> simp [get_months, hkey]
  | none => constructor <;> simp [get_months, hkey, cache_get_set]

/-- C9: every job of a thumbnail batch yields exactly one result, the
failure count of the end-of-run report equals the number of jobs whose
body raises, and a raising body is converted into a
`(success = false, message)` result instead of propagating. -/
theorem thumbnail_batch_partial_failure (jobs : List (Nat × Option ThumbArticle)) :
    (handle jobs).results.length = jobs.length
    ∧ (handle jobs).error_count
        = jobs.countP (fun j =>
            match thumbnail_body j.2 with
            | Except.error _ => true
            | Except.ok _ => false)
    ∧ ∀ pk lookup e, thumbnail_body lookup = Except.error e →
        generate_thumbnail_for_article pk lookup
          = (false, "Could not process article " ++ toString pk ++ ": " ++ e) := by
  refine ⟨?_, ?_, ?_⟩
  · simp [handle]
  · simp only [handle, List.countP_map]
    apply List.countP_congr
    intro j _
    cases hb : thumbnail_body j.2 <;>
      simp [Function.comp, generate_thumbnail_for_article, hb]
  · intro pk lookup e he
    simp [generate_thumbnail_for_article, he]

/-- Witness for C9 on the three-job batch with one failing job. -/
theorem thumbnail_batch_partial_failure_witness :
    (handle thumbJobs).results.length = 3
    ∧ (handle thumbJobs).error_count = 1
    ∧ generate_thumbnail_for_article 3 (some ⟨"Third", some badImage⟩)
        = (false, "Could not process article 3: The source file does not exist") := by
  refine ⟨?_, ?_, ?_⟩
  · exact (thumbnail_batch_partial_failure thumbJobs).1.trans rfl
  · exact (thumbnail_batch_partial_failure thumbJobs).2.1.trans rfl
  · exact ((thumbnail_batch_partial_failure thumbJobs).2.2 3
      (some ⟨"Third", some badImage⟩) "The source file does not exist" rfl).trans
      (by decide)
